import Mathlib

/-!
Verification of the pygame-menu widget core (`pygame_menu/widgets/core/widget.py`,
`pygame_menu/widgets/widget/button.py`) against its natural-language specification.

The Python classes are shallowly embedded: the mutable `Widget` object becomes a
Lean structure, mutator methods become functions `Widget → ... → Widget` (or return
an `Except Widget Widget` when the method can raise, carrying the state at raise
time), and callback invocations are recorded in result structures instead of being
executed. Python ints are `Int`, Python floats are `Rat`, `time.time()` and
`random.randrange` draws are passed as explicit arguments.
-/

namespace PM

/-- Shadow/position constants from `pygame_menu.locals` (`POSITION_NORTHWEST`, ...),
embedded as an inductive type. -/
inductive Position where
  | northwest | north | northeast | east | southeast | south | southwest | west | center
deriving DecidableEq

/-- Unit shadow direction per position, as computed inside `Widget.set_shadow`
(the chain of `if/elif` branches setting `x` and `y`). -/
def Position.unitOffset : Position → Int × Int
  | .northwest => (-1, -1)
  | .north => (0, -1)
  | .northeast => (1, -1)
  | .east => (1, 0)
  | .southeast => (1, 1)
  | .south => (0, 1)
  | .southwest => (-1, 1)
  | .west => (-1, 0)
  | .center => (0, 0)

/-- Shallow embedding of the mutable state of `pygame_menu.widgets.core.Widget`
(the fields of `Widget.__init__` used by the verified operations).
`value = none` models a value-less widget whose `get_value` raises `ValueError`
(the base-class behaviour); `on_select_set`/`on_return_set`/`on_change_set` record
whether the corresponding callback is not `None`. -/
structure Widget where
  -- public flags
  selected : Bool
  active : Bool
  is_selectable : Bool
  lock_position : Bool
  readonly : Bool
  visible : Bool
  floating : Bool
  -- rect (pygame.Rect: x, y, width, height)
  rect_x : Int
  rect_y : Int
  rect_w : Int
  rect_h : Int
  -- transformed padding (top, right, bottom, left), `_padding_transform`
  pad_top : Int
  pad_right : Int
  pad_bottom : Int
  pad_left : Int
  translate : Int × Int
  selection_time : Rat
  events : List Int
  last_render_hash : Int
  col_row_index : Int × Int × Int
  has_menu : Bool
  -- callbacks and callback data
  on_select_set : Bool
  on_return_set : Bool
  on_change_set : Bool
  class_name : String
  id : String
  widget_args : List Int
  widget_kwargs : List (String × Int)
  value : Option Int
  -- text shadow
  shadow : Bool
  shadow_color : List Int
  shadow_position : Position
  shadow_offset : Int
  shadow_tuple : Int × Int
  -- transforms: `_scale = [do_scale, x, y, smooth]`,
  -- `_max_width = [size, height_scale, smooth]`, `_max_height = [size, width_scale, smooth]`
  scale_do : Bool
  scale_x : Rat
  scale_y : Rat
  scale_smooth : Bool
  max_width : Option Rat
  max_width_scale_height : Bool
  max_width_smooth : Bool
  max_height : Option Rat
  max_height_scale_width : Bool
  max_height_smooth : Bool
  -- input controls
  joystick_enabled : Bool
  mouse_enabled : Bool
  touchscreen_enabled : Bool
  -- window size of the owning menu (`get_menu().get_window_size()`)
  window_size : Int × Int
  has_update_callbacks : Bool
deriving DecidableEq

/-- The widget state produced by `Widget.__init__` (default construction). -/
def defaultWidget : Widget where
  selected := false
  active := false
  is_selectable := true
  lock_position := false
  readonly := false
  visible := true
  floating := false
  rect_x := 0
  rect_y := 0
  rect_w := 0
  rect_h := 0
  pad_top := 0
  pad_right := 0
  pad_bottom := 0
  pad_left := 0
  translate := (0, 0)
  selection_time := 0
  events := []
  last_render_hash := 0
  col_row_index := (-1, -1, -1)
  has_menu := false
  on_select_set := false
  on_return_set := false
  on_change_set := false
  class_name := "Widget"
  id := ""
  widget_args := []
  widget_kwargs := []
  value := none
  shadow := false
  shadow_color := [0, 0, 0]
  shadow_position := .northwest
  shadow_offset := 2
  shadow_tuple := (0, 0)
  scale_do := false
  scale_x := 1
  scale_y := 1
  scale_smooth := false
  max_width := none
  max_width_scale_height := false
  max_width_smooth := true
  max_height := none
  max_height_scale_width := false
  max_height_smooth := true
  joystick_enabled := true
  mouse_enabled := true
  touchscreen_enabled := true
  window_size := (0, 0)
  has_update_callbacks := false

/-- `Widget.set_menu(menu)`: stores the menu reference; if `menu is None`, the
column/row/index triple is reset to `(-1, -1, -1)`. -/
def Widget.set_menu (w : Widget) (menu : Option Unit) : Widget :=
  let w1 := { w with has_menu := menu.isSome }
  if menu.isNone then { w1 with col_row_index := (-1, -1, -1) } else w1

/-- `Widget.get_col_row_index()`: returns the stored triple. -/
def Widget.get_col_row_index (w : Widget) : Int × Int × Int :=
  w.col_row_index

/-- `Widget.set_position(posx, posy)`: if `lock_position` is set, returns with no
change; otherwise sets `rect.x = int(posx) + translate[0]`,
`rect.y = int(posy) + translate[1]`. -/
def Widget.set_position (w : Widget) (posx posy : Int) : Widget :=
  if w.lock_position then w
  else { w with rect_x := posx + w.translate.1, rect_y := posy + w.translate.2 }

/-- `Widget.get_selected_time()`: `0` when not selected, otherwise
`(time.time() - self._selection_time) * 1000` (current time passed explicitly). -/
def Widget.get_selected_time (w : Widget) (now : Rat) : Rat :=
  if !w.selected then 0 else (now - w.selection_time) * 1000

/-- Result of `Widget.select`: the new widget state plus a record of the
`on_select` invocation (`some status` when the callback was called, with the
boolean it received). -/
structure SelectResult where
  widget : Widget
  firedWith : Option Bool
deriving DecidableEq

/-- `Widget.select(status)` with the default `update_menu=False`: non-selectable
widgets return immediately; otherwise `_selected` and `active` are set, the
focus/blur branch stamps the selection time or clears the buffered events, a
render is forced (`_last_render_hash = 0`), and `on_select` is invoked (when
set) with the new status. -/
def Widget.select (w : Widget) (status : Bool) (now : Rat) : SelectResult :=
  if !w.is_selectable then ⟨w, none⟩
  else
    let w1 := { w with selected := status, active := false }
    let w2 := if status then { w1 with selection_time := now }
              else { w1 with events := [] }
    let w3 := { w2 with last_render_hash := 0 }
    ⟨w3, if w.on_select_set then some status else none⟩

/-- `Widget.get_value()` in exception form: value-bearing widgets return their
value, the value-less base class raises `ValueError` with the class name and id
in the message. -/
def Widget.get_value (w : Widget) : Except String Int :=
  match w.value with
  | some v => Except.ok v
  | none => Except.error (w.class_name ++ "(" ++ w.id ++ ") does not accept value")

/-- `Widget.apply(*args)`: `none` when no callback was invoked, otherwise the
positional arguments and keyword arguments delivered to `on_return`. -/
def Widget.apply (w : Widget) (margs : List Int) : Option (List Int × List (String × Int)) :=
  if w.readonly then none
  else if w.on_return_set then
    let args := margs ++ w.widget_args
    let args := match w.get_value with
      | Except.ok v => v :: args
      | Except.error _ => args
    some (args, w.widget_kwargs)
  else none

/-- `Widget.change(*args)`: same shape as `Widget.apply` but for `on_change`. -/
def Widget.change (w : Widget) (margs : List Int) : Option (List Int × List (String × Int)) :=
  if w.readonly then none
  else if w.on_change_set then
    let args := margs ++ w.widget_args
    let args := match w.get_value with
      | Except.ok v => v :: args
      | Except.error _ => args
    some (args, w.widget_kwargs)
  else none

/-! ### Render-cache hash (`Widget._hash_variables`, `Widget._render_hash_changed`) -/

/-- `Widget._hash_variables(*args)`: `h = hash(args); if h == 0: h =
random.randrange(-100000, 100000)`. The Python hash of the argument tuple and
the `randrange` draw are passed explicitly; a draw of `randrange(-100000,
100000)` satisfies `-100000 ≤ rng < 100000`. -/
def hash_variables (pyhash rng : Int) : Int :=
  if pyhash = 0 then rng else pyhash

/-- `Widget._render_hash_changed(*args)` given the stored `_last_render_hash`
and the freshly computed hash: returns whether a render is needed together with
the updated stored hash. -/
def render_hash_changed (last h : Int) : Bool × Int :=
  if h ≠ last ∨ last = 0 then (true, h) else (false, last)

/-! ### Text shadow (`Widget.set_shadow`) -/

/-- Modelled from the spec: `pygame_menu.utils.assert_color` is not under `src/`
(the spec only calls its argument "an invalid shadow color"); it validates a
3- or 4-component color whose channels lie in `0..255`. -/
def validColor (c : List Int) : Bool :=
  (c.length == 3 || c.length == 4) && c.all (fun x => 0 ≤ x && x ≤ 255)

/-- `Widget.set_shadow(enabled, color, position, offset)` embedded with explicit
exception flow: `.error s` means the call raised with the object left in state
`s`. The source mutates `self._shadow = enabled` first, then validates and
stores color and position, then asserts `offset > 0`, stores `int(offset)`,
computes `_shadow_tuple` from the (possibly updated) position, and forces a
render. -/
def Widget.set_shadow (w : Widget) (enabled : Bool) (color : Option (List Int))
    (position : Option Position) (offset : Int) : Except Widget Widget :=
  let w1 := { w with shadow := enabled }
  let step2 : Except Widget Widget :=
    match color with
    | some c => if validColor c then Except.ok { w1 with shadow_color := c } else Except.error w1
    | none => Except.ok w1
  match step2 with
  | Except.error s => Except.error s
  | Except.ok w2 =>
    let w3 := match position with
      | some p => { w2 with shadow_position := p }
      | none => w2
    if offset ≤ 0 then Except.error w3
    else
      let w4 := { w3 with shadow_offset := offset }
      let u := w4.shadow_position.unitOffset
      let w5 := { w4 with shadow_tuple := (u.1 * offset, u.2 * offset) }
      Except.ok { w5 with last_render_hash := 0 }

/-! ### Transforms (`Widget.scale`, `Widget.set_max_width`, `Widget.set_max_height`) -/

/-- Result of a transform mutator: the state after the call, the number of
`warnings.warn` emissions, and whether an assertion raised (`widget` then holds
the state at raise time). -/
structure TransformResult where
  widget : Widget
  warnings : Nat
  raised : Bool
deriving DecidableEq

/-- `Widget._disable_scale()`: resets `_scale` to the identity, clears
`_max_width[0]` and `_max_height[0]` and calls `render()`
(modelled by clearing `_last_render_hash`). -/
def Widget.disable_scale (w : Widget) : Widget :=
  { w with scale_do := false, scale_x := 1, scale_y := 1,
           max_width := none, max_height := none, last_render_hash := 0 }

/-- `Widget.set_max_width(width, scale_height, smooth)`: disables scaling first,
then stores the new `_max_width`; `width < 0` fails the assert. The two
conflict-warning branches test `_scale[0]` and `_max_height[0]` after
`_disable_scale` already cleared them. -/
def Widget.set_max_width (w : Widget) (width : Option Rat)
    (scale_height smooth : Bool) : TransformResult :=
  let s := w.disable_scale
  match width with
  | none => ⟨{ s with max_width := none }, 0, false⟩
  | some wd =>
    if wd < 0 then ⟨s, 0, true⟩
    else
      let s1 := { s with max_width := some wd, max_width_scale_height := scale_height,
                         max_width_smooth := smooth }
      if s1.scale_do then ⟨s1, 1, false⟩
      else if s1.max_height.isSome then ⟨s1, 1, false⟩
      else ⟨{ s1 with last_render_hash := 0 }, 0, false⟩

/-- `Widget.set_max_height(height, scale_width, smooth)`: mirror image of
`set_max_width`, with the strict assert `height > 0`. -/
def Widget.set_max_height (w : Widget) (height : Option Rat)
    (scale_width smooth : Bool) : TransformResult :=
  let s := w.disable_scale
  match height with
  | none => ⟨{ s with max_height := none }, 0, false⟩
  | some ht =>
    if ht ≤ 0 then ⟨s, 0, true⟩
    else
      let s1 := { s with max_height := some ht, max_height_scale_width := scale_width,
                         max_height_smooth := smooth }
      if s1.scale_do then ⟨s1, 1, false⟩
      else if s1.max_width.isSome then ⟨s1, 1, false⟩
      else ⟨{ s1 with last_render_hash := 0 }, 0, false⟩

/-- `Widget.scale(width, height, smooth)`: asserts both factors positive, calls
`_disable_scale`, tests the (already cleared) `_max_width[0]` / `_max_height[0]`
warning branches, stores `_scale = [True, width, height, smooth]`, and turns
`do_scale` back off for the identity factor `(1, 1)`. -/
def Widget.scale_transform (w : Widget) (width height : Rat) (smooth : Bool) : TransformResult :=
  if width ≤ 0 ∨ height ≤ 0 then ⟨w, 0, true⟩
  else
    let s := w.disable_scale
    if s.max_width.isSome then ⟨s, 1, false⟩
    else if s.max_height.isSome then ⟨s, 1, false⟩
    else
      let s1 := { s with scale_do := true, scale_x := width, scale_y := height,
                         scale_smooth := smooth }
      let s2 := if width = 1 ∧ height = 1 then { s1 with scale_do := false } else s1
      ⟨{ s2 with last_render_hash := 0 }, 0, false⟩

/-- One call in a sequence of transform mutators. -/
inductive TransformOp where
  | opScale (width height : Rat) (smooth : Bool)
  | opMaxWidth (width : Option Rat) (scale_height smooth : Bool)
  | opMaxHeight (height : Option Rat) (scale_width smooth : Bool)

/-- Dispatch one transform call. -/
def Widget.runTransformOp (w : Widget) (op : TransformOp) : TransformResult :=
  match op with
  | .opScale wd ht sm => w.scale_transform wd ht sm
  | .opMaxWidth wd sh sm => w.set_max_width wd sh sm
  | .opMaxHeight ht sw sm => w.set_max_height ht sw sm

/-- State after a sequence of transform calls (a call that raised contributes
the state it left behind, as the exception propagates past it). -/
def Widget.runTransformOps (w : Widget) (ops : List TransformOp) : Widget :=
  ops.foldl (fun s op => (s.runTransformOp op).widget) w

/-- At most one of the three transforms is active: the scale flag, a non-`None`
max width, a non-`None` max height. -/
def Widget.transformExclusive (w : Widget) : Bool :=
  !(w.scale_do && w.max_width.isSome) && !(w.scale_do && w.max_height.isSome) &&
    !(w.max_width.isSome && w.max_height.isSome)

/-! ### Button input handling (`Button.update`) -/

/-- Modelled from the spec: `pygame_menu.controls` is not under `src/`; the apply
key (`KEY_APPLY`) is a configurable keycode, embedded as a concrete constant. -/
def KEY_APPLY : Int := 13

/-- Modelled from the spec: `pygame_menu.controls` is not under `src/`; the
joystick confirm button (`JOY_BUTTON_SELECT`), embedded as a concrete constant. -/
def JOY_BUTTON_SELECT : Int := 0

/-- The pygame events examined by `Button.update`: key-down, joystick
button-down, mouse button-up (integer pixel position), finger-up (normalized
`0..1` float coordinates), and anything else. -/
inductive PEvent where
  | keydown (key : Int)
  | joybuttondown (button : Int)
  | mousebuttonup (px py : Int)
  | fingerup (fx fy : Rat)
  | other
deriving DecidableEq

/-- A `pygame.Rect`. -/
structure Rect where
  x : Int
  y : Int
  w : Int
  h : Int
deriving DecidableEq

/-- `pygame.Rect.collidepoint(px, py)`: a point is inside the rectangle, with the
right and bottom edges excluded. -/
def Rect.collidepoint (r : Rect) (px py : Rat) : Bool :=
  decide ((r.x : Rat) ≤ px) && decide (px < ((r.x + r.w : Int) : Rat)) &&
    decide ((r.y : Rat) ≤ py) && decide (py < ((r.y + r.h : Int) : Rat))

/-- `Widget.get_rect()` with the default arguments (`inflate=(0,0)`,
`apply_padding=True`, `use_transformed_padding=True`): the stored rect inflated
by the transformed padding on all four sides. -/
def Widget.get_rect (w : Widget) : Rect :=
  ⟨w.rect_x - w.pad_left, w.rect_y - w.pad_top,
   w.rect_w + w.pad_left + w.pad_right, w.rect_h + w.pad_bottom + w.pad_top⟩

/-- The per-event condition on which the `Button.update` loop calls `apply()`,
transcribed branch by branch (the sound-effect calls have no state effect and
are dropped). -/
def Widget.buttonEventFires (w : Widget) (r : Rect) : PEvent → Bool
  | .keydown k => k == KEY_APPLY
  | .joybuttondown b => w.joystick_enabled && b == JOY_BUTTON_SELECT
  | .mousebuttonup px py => w.mouse_enabled && r.collidepoint px py
  | .fingerup fx fy =>
      w.touchscreen_enabled &&
        r.collidepoint (fx * (w.window_size.1 : Rat)) (fy * (w.window_size.2 : Rat))
  | .other => false

/-- Result of `Button.update(events)`: how many times `apply()` was invoked,
whether the registered update-callbacks were executed afterwards, and the
returned boolean. -/
structure UpdateResult where
  applyCount : Nat
  ranUpdateCallbacks : Bool
  result : Bool
deriving DecidableEq

/-- `Button.update(events)`: returns `False` immediately when readonly;
otherwise scans the event list once accumulating `updated`, firing `apply()`
per matching event, and finally runs `apply_update_callbacks()` iff `updated`
(which executes the callbacks iff some are registered, readonly being false
here). -/
def Widget.button_update (w : Widget) (events : List PEvent) : UpdateResult :=
  if w.readonly then ⟨0, false, false⟩
  else
    let r := w.get_rect
    let acc := events.foldl
      (fun (acc : Nat × Bool) e => if w.buttonEventFires r e then (acc.1 + 1, true) else acc)
      (0, false)
    ⟨acc.1, acc.2 && w.has_update_callbacks, acc.2⟩

/-- The claim's notion of a "matching event", written from the claim's words
(refinement definition, to be compared with `Widget.buttonEventFires`): a
key-down carrying the apply key, a joystick confirm-button press, a mouse
button-up whose position lies inside the padded rect, or a finger-up whose
normalized coordinates scaled by the window size lie inside that rect. -/
def claimMatches (r : Rect) (win : Int × Int) : PEvent → Bool
  | .keydown k => k == KEY_APPLY
  | .joybuttondown b => b == JOY_BUTTON_SELECT
  | .mousebuttonup px py => r.collidepoint px py
  | .fingerup fx fy => r.collidepoint (fx * (win.1 : Rat)) (fy * (win.2 : Rat))
  | .other => false

/-! ### Menu layout (spec-modelled) -/

/-- Modelled from the spec: the Menu layout engine (the `Menu` class is not under
`src/`). Per spec section 4.3, the ordered widget list is mapped onto a
column/row grid described by the per-column row capacities `rows`: hidden
widgets get column/row/index `(-1, -1, -1)`; a floating widget occupies the same
column and row as the preceding non-floating widget and does not advance the
counters, but still receives an ascending sequence index; every other visible
widget fills the current column up to its row capacity before advancing to the
next column; exceeding the total row-by-column capacity fails the operation
(`none`). `col`/`row` are the next free slot, `idx` the next sequence index, and
`last` the slot of the preceding non-floating widget. -/
def assignLayout (rows : List Nat) : List Widget → Nat → Nat → Nat → Nat × Nat →
    Option (List Widget)
  | [], _, _, _, _ => some []
  | w :: ws, col, row, idx, last =>
    if !w.visible then
      (assignLayout rows ws col row idx last).map
        (fun r => { w with col_row_index := (-1, -1, -1) } :: r)
    else if w.floating then
      (assignLayout rows ws col row (idx + 1) last).map
        (fun r => { w with col_row_index := ((last.1 : Int), (last.2 : Int), (idx : Int)) } :: r)
    else
      if col < rows.length then
        let cap := rows.getD col 0
        let next := if row + 1 = cap then (col + 1, 0) else (col, row + 1)
        (assignLayout rows ws next.1 next.2 (idx + 1) (col, row)).map
          (fun r => { w with col_row_index := ((col : Int), (row : Int), (idx : Int)) } :: r)
      else none

/-- Modelled from the spec: a Menu lays out its widget list from the first slot,
with no preceding non-floating widget (`last = (0, 0)`). -/
def menuLayout (rows : List Nat) (ws : List Widget) : Option (List Widget) :=
  assignLayout rows ws 0 0 0 (0, 0)

/-! ### Concrete widget states used by witnesses and counterexamples -/

/-- A readonly widget with callbacks attached. -/
def readonlyWidget : Widget :=
  { defaultWidget with readonly := true, on_return_set := true, on_change_set := true }

/-- A value-bearing widget (`get_value` returns `7`) with both callbacks set. -/
def valueWidget : Widget :=
  { defaultWidget with value := some 7, on_return_set := true, on_change_set := true,
                       widget_args := [10, 20], widget_kwargs := [("k", 1)] }

/-- A value-less button (`get_value` raises) with both callbacks set. -/
def valuelessWidget : Widget :=
  { defaultWidget with class_name := "Button", id := "b1",
                       on_return_set := true, on_change_set := true, widget_args := [10] }

/-- An already-selected widget with an `on_select` callback. -/
def selectedWidget : Widget :=
  { defaultWidget with selected := true, on_select_set := true, selection_time := 5,
                       last_render_hash := 77 }

/-- A non-selectable widget. -/
def nonSelectableWidget : Widget :=
  { defaultWidget with is_selectable := false, on_select_set := true }

/-- A selectable selected widget with buffered events. -/
def bufferedWidget : Widget :=
  { defaultWidget with selected := true, events := [1, 2, 3] }

/-- A widget with `lock_position` set. -/
def lockedWidget : Widget :=
  { defaultWidget with lock_position := true, rect_x := 7, rect_y := 8 }

/-- A widget with a translate offset. -/
def translatedWidget : Widget :=
  { defaultWidget with translate := (10, 20) }

/-! ### C9: selected time of an unselected widget -/

/-- Claim C9: for every widget that is not currently selected,
`get_selected_time()` returns exactly `0`, regardless of the stored
selection timestamp. -/
theorem c9_selected_time (w : Widget) (now : Rat) (h : w.selected = false) :
    w.get_selected_time now = 0 := by
  simp [Widget.get_selected_time, h]

/-- Witness for C9: a widget with a stale nonzero selection timestamp but
deselected still reports `0`. -/
theorem c9_selected_time_witness :
    ({ defaultWidget with selection_time := 55 } : Widget).selected = false ∧
      ({ defaultWidget with selection_time := 55 } : Widget).get_selected_time 100 = 0 :=
  ⟨rfl, c9_selected_time { defaultWidget with selection_time := 55 } 100 rfl⟩

/-! ### C10: set_position -/

/-- Claim C10: when `lock_position` is set, `set_position` changes nothing;
otherwise it sets the rect position to `(int(x)+tx, int(y)+ty)` for the stored
translate offset `(tx, ty)` and changes no other field. -/
theorem c10_set_position (w : Widget) (x y : Int) :
    (w.lock_position = true → w.set_position x y = w) ∧
    (w.lock_position = false →
      w.set_position x y =
        { w with rect_x := x + w.translate.1, rect_y := y + w.translate.2 }) := by
  constructor
  · intro h
    simp [Widget.set_position, h]
  · intro h
    simp [Widget.set_position, h]

/-- Witness for C10 at a locked and at a translated widget. -/
theorem c10_set_position_witness :
    lockedWidget.lock_position = true ∧
    lockedWidget.set_position 3 4 = lockedWidget ∧
    translatedWidget.lock_position = false ∧
    translatedWidget.set_position 3 4 =
      { translatedWidget with rect_x := 13, rect_y := 24 } :=
  ⟨rfl, (c10_set_position lockedWidget 3 4).1 rfl, rfl,
   (c10_set_position translatedWidget 3 4).2 rfl⟩

/-! ### C7: select gating and event discard -/

/-- Claim C7: a non-selectable widget silently ignores `select` (state unchanged
and no `on_select` invocation); on a selectable widget, a transition to
unselected empties the buffered event list. -/
theorem c7_select_gating (w : Widget) (status : Bool) (now : Rat) :
    (w.is_selectable = false → w.select status now = ⟨w, none⟩) ∧
    (w.is_selectable = true → (w.select false now).widget.events = []) := by
  constructor
  · intro h
    simp [Widget.select, h]
  · intro h
    simp [Widget.select, h]

/-- Witness for C7: a non-selectable widget ignores selection, and deselecting a
widget with three buffered events clears them. -/
theorem c7_select_gating_witness :
    nonSelectableWidget.is_selectable = false ∧
    nonSelectableWidget.select true 5 = ⟨nonSelectableWidget, none⟩ ∧
    bufferedWidget.is_selectable = true ∧
    (bufferedWidget.select false 5).widget.events = [] :=
  ⟨rfl, (c7_select_gating nonSelectableWidget true 5).1 rfl, rfl,
   (c7_select_gating bufferedWidget false 5).2 rfl⟩

/-! ### C5: re-selecting an already selected widget -/

/-- Counterexample to C5 as stated: re-selecting an already-selected widget
re-invokes the `on_select` callback (with `True`) and mutates the state
(selection time restamped, render forced), so it is not a callback-free no-op. -/
theorem c5_counterexample :
    selectedWidget.is_selectable = true ∧ selectedWidget.selected = true ∧
    (selectedWidget.select true 9).firedWith = some true ∧
    (selectedWidget.select true 9).widget ≠ selectedWidget := by
  refine ⟨rfl, rfl, rfl, ?_⟩
  decide

/-- Claim C5 (amended): re-selecting an already-selected selectable widget keeps
the `_selected` flag unchanged, but re-invokes the `on_select` callback (when
set) with the current status, resets `active`, and re-stamps the selection
time — the deduplication of redundant selects is not performed by
`Widget.select`. -/
theorem c5_reselect (w : Widget) (now : Rat)
    (h1 : w.is_selectable = true) (h2 : w.selected = true) :
    (w.select true now).widget.selected = true ∧
    (w.select true now).firedWith = (if w.on_select_set then some true else none) ∧
    (w.select true now).widget.selection_time = now ∧
    (w.select true now).widget.active = false := by
  simp [Widget.select, h1]

/-- Witness for the amended C5 at the concrete selected widget. -/
theorem c5_reselect_witness :
    selectedWidget.is_selectable = true ∧ selectedWidget.selected = true ∧
    ((selectedWidget.select true 9).widget.selected = true ∧
     (selectedWidget.select true 9).firedWith =
       (if selectedWidget.on_select_set then some true else none) ∧
     (selectedWidget.select true 9).widget.selection_time = 9 ∧
     (selectedWidget.select true 9).widget.active = false) :=
  ⟨rfl, rfl, c5_reselect selectedWidget 9 rfl rfl⟩

/-! ### C1: the render-cache hash can be zero -/

/-- Claim C1 is a code bug: when `hash(args) == 0`, the remap draws from
`random.randrange(-100000, 100000)`, whose range contains `0`, so the computed
hash — and hence the stored last-render hash — can still be `0`, contradicting
the documented "0 means never rendered" convention. -/
theorem c1_zero_hash_possible :
    hash_variables 0 0 = 0 ∧
    ((-100000 : Int) ≤ 0 ∧ (0 : Int) < 100000) ∧
    (render_hash_changed 0 (hash_variables 0 0)).2 = 0 := by
  refine ⟨rfl, by decide, rfl⟩

/-! ### C3: apply/change callback contract -/

/-- Claim C3: `apply()`/`change()` are no-ops under `readonly`; otherwise they
invoke the on-return/on-change callback with `(value?, *method-args,
*widget-args, **widget-kwargs)`, prepending the value exactly when `get_value`
does not raise; a value-less widget's `get_value` raises a `ValueError`
carrying the class name and id. -/
theorem c3_callback_contract (w : Widget) (margs : List Int) :
    (w.readonly = true → w.apply margs = none ∧ w.change margs = none) ∧
    (w.readonly = false → w.on_return_set = true →
      (∀ v, w.get_value = Except.ok v →
        w.apply margs = some (v :: (margs ++ w.widget_args), w.widget_kwargs)) ∧
      (∀ e, w.get_value = Except.error e →
        w.apply margs = some (margs ++ w.widget_args, w.widget_kwargs))) ∧
    (w.readonly = false → w.on_change_set = true →
      (∀ v, w.get_value = Except.ok v →
        w.change margs = some (v :: (margs ++ w.widget_args), w.widget_kwargs)) ∧
      (∀ e, w.get_value = Except.error e →
        w.change margs = some (margs ++ w.widget_args, w.widget_kwargs))) ∧
    (w.value = none →
      w.get_value = Except.error (w.class_name ++ "(" ++ w.id ++ ") does not accept value")) := by
  refine ⟨?_, ?_, ?_, ?_⟩
  · intro h
    exact ⟨by simp [Widget.apply, h], by simp [Widget.change, h]⟩
  · intro h1 h2
    constructor
    · intro v hv
      simp [Widget.apply, h1, h2, hv]
    · intro e he
      simp [Widget.apply, h1, h2, he]
  · intro h1 h2
    constructor
    · intro v hv
      simp [Widget.change, h1, h2, hv]
    · intro e he
      simp [Widget.change, h1, h2, he]
  · intro h
    simp [Widget.get_value, h]

/-- Witness for C3: a readonly widget fires nothing; a value-bearing widget
prepends its value; a value-less button omits the value and its `get_value`
error names the class and id. -/
theorem c3_callback_contract_witness :
    (readonlyWidget.apply [] = none ∧ readonlyWidget.change [] = none) ∧
    valueWidget.apply [1] = some (7 :: ([1] ++ valueWidget.widget_args), valueWidget.widget_kwargs) ∧
    valuelessWidget.change [2] = some ([2] ++ valuelessWidget.widget_args, valuelessWidget.widget_kwargs) ∧
    valuelessWidget.get_value =
      Except.error (valuelessWidget.class_name ++ "(" ++ valuelessWidget.id ++ ") does not accept value") :=
  ⟨(c3_callback_contract readonlyWidget []).1 rfl,
   ((c3_callback_contract valueWidget [1]).2.1 rfl rfl).1 7 rfl,
   ((c3_callback_contract valuelessWidget [2]).2.2.1 rfl rfl).2
     ("Button" ++ "(" ++ "b1" ++ ") does not accept value") rfl,
   (c3_callback_contract valuelessWidget [2]).2.2.2 rfl⟩

/-! ### C4: Button.update -/

/-- The `Button.update` accumulator counts the matching events. -/
lemma foldl_fire_fst (p : PEvent → Bool) :
    ∀ (es : List PEvent) (n : Nat) (b : Bool),
      (es.foldl (fun (acc : Nat × Bool) e => if p e then (acc.1 + 1, true) else acc) (n, b)).1 =
        n + es.countP p
  | [], n, b => by simp
  | e :: es, n, b => by
    cases hpe : p e
    · simpa [hpe, List.countP_cons] using foldl_fire_fst p es n b
    · have h := foldl_fire_fst p es (n + 1) true
      simp [hpe, List.countP_cons, h, Nat.add_assoc, Nat.add_comm, Nat.add_left_comm]

/-- The `Button.update` accumulator records whether any event matched. -/
lemma foldl_fire_snd (p : PEvent → Bool) :
    ∀ (es : List PEvent) (n : Nat) (b : Bool),
      (es.foldl (fun (acc : Nat × Bool) e => if p e then (acc.1 + 1, true) else acc) (n, b)).2 =
        (b || es.any p)
  | [], n, b => by simp
  | e :: es, n, b => by
    cases hpe : p e
    · simpa [hpe, List.any_cons] using foldl_fire_snd p es n b
    · have h := foldl_fire_snd p es (n + 1) true
      simp [hpe, List.any_cons, h]

/-- A concrete button: padded rect `(0,0) - (10,10)`, window `100 × 100`, with
registered update-callbacks. -/
def demoButton : Widget :=
  { defaultWidget with rect_w := 10, rect_h := 10, window_size := (100, 100),
                       has_update_callbacks := true }

/-- The same button, readonly. -/
def demoButtonReadonly : Widget :=
  { demoButton with readonly := true }

/-- A batch with four matching events (apply key, joystick confirm, mouse-up
inside the rect, normalized finger-up inside the rect) and two non-matching
ones. -/
def demoEvents : List PEvent :=
  [PEvent.keydown 13, PEvent.joybuttondown 0, PEvent.mousebuttonup 5 5,
   PEvent.mousebuttonup 50 50, PEvent.fingerup (mkRat 1 20) (mkRat 1 20), PEvent.other]

/-- The same batch without the touch event (used for a fully evaluated run). -/
def demoEventsBasic : List PEvent :=
  [PEvent.keydown 13, PEvent.joybuttondown 0, PEvent.mousebuttonup 5 5,
   PEvent.mousebuttonup 50 50, PEvent.other]

/-- Claim C4: under the constructor-default input-control flags, `Button.update`
fires `apply()` once per matching event (key-apply, joystick confirm, mouse-up
inside the padded rect, scaled finger-up inside that rect), returns `True` iff
at least one fired, runs the registered update-callbacks exactly when it
returns `True`, and a readonly button processes nothing and returns `False`. -/
theorem c4_button_update (w : Widget) (events : List PEvent) :
    (w.readonly = true → w.button_update events = ⟨0, false, false⟩) ∧
    (w.readonly = false → w.joystick_enabled = true → w.mouse_enabled = true →
      w.touchscreen_enabled = true →
      (w.button_update events).applyCount =
        events.countP (claimMatches w.get_rect w.window_size) ∧
      ((w.button_update events).result = true ↔
        0 < events.countP (claimMatches w.get_rect w.window_size)) ∧
      (w.button_update events).ranUpdateCallbacks =
        ((w.button_update events).result && w.has_update_callbacks)) := by
  constructor
  · intro h
    simp [Widget.button_update, h]
  · intro h hj hm ht
    have hfun : w.buttonEventFires w.get_rect = claimMatches w.get_rect w.window_size := by
      funext e
      cases e <;> simp [Widget.buttonEventFires, claimMatches, hj, hm, ht]
    have hcount : (w.button_update events).applyCount =
        events.countP (claimMatches w.get_rect w.window_size) := by
      simp [Widget.button_update, h, hfun, foldl_fire_fst]
    have hres : (w.button_update events).result =
        events.any (claimMatches w.get_rect w.window_size) := by
      simp [Widget.button_update, h, hfun, foldl_fire_snd]
    have hran : (w.button_update events).ranUpdateCallbacks =
        ((w.button_update events).result && w.has_update_callbacks) := by
      simp [Widget.button_update, h]
    refine ⟨hcount, ?_, hran⟩
    rw [hres, List.any_eq_true]
    exact (List.countP_pos_iff).symm

/-- Witness for C4: the demo button fires on all four matching events of the
batch and runs its update-callbacks; the readonly copy reports no update. -/
theorem c4_button_update_witness :
    demoButtonReadonly.button_update demoEvents = ⟨0, false, false⟩ ∧
    ((demoButton.button_update demoEvents).applyCount =
       demoEvents.countP (claimMatches demoButton.get_rect demoButton.window_size) ∧
     ((demoButton.button_update demoEvents).result = true ↔
       0 < demoEvents.countP (claimMatches demoButton.get_rect demoButton.window_size)) ∧
     (demoButton.button_update demoEvents).ranUpdateCallbacks =
       ((demoButton.button_update demoEvents).result && demoButton.has_update_callbacks)) ∧
    demoButton.button_update demoEventsBasic = ⟨3, true, true⟩ :=
  ⟨(c4_button_update demoButtonReadonly demoEvents).1 rfl,
   (c4_button_update demoButton demoEvents).2 rfl rfl rfl rfl,
   by decide⟩

/-! ### C6: scale and max-width/max-height exclusivity -/

/-- Any single transform call leaves at most one transform active. -/
lemma transformOp_exclusive (w : Widget) (op : TransformOp)
    (h : w.transformExclusive = true) :
    ((w.runTransformOp op).widget).transformExclusive = true := by
  cases op with
  | opScale wd ht sm =>
    by_cases h0 : wd ≤ 0 ∨ ht ≤ 0
    · simpa [Widget.runTransformOp, Widget.scale_transform, h0] using h
    · simp only [Widget.runTransformOp]
      unfold Widget.scale_transform
      simp only [if_neg h0]
      by_cases h1 : wd = 1 ∧ ht = 1 <;>
        simp [h1, Widget.disable_scale, Widget.transformExclusive]
  | opMaxWidth wd sh sm =>
    cases wd with
    | none =>
      simp [Widget.runTransformOp, Widget.set_max_width, Widget.disable_scale,
        Widget.transformExclusive]
    | some v =>
      by_cases h0 : v < 0 <;>
        simp [Widget.runTransformOp, Widget.set_max_width, h0,
          Widget.disable_scale, Widget.transformExclusive]
  | opMaxHeight ht sw sm =>
    cases ht with
    | none =>
      simp [Widget.runTransformOp, Widget.set_max_height, Widget.disable_scale,
        Widget.transformExclusive]
    | some v =>
      by_cases h0 : v ≤ 0 <;>
        simp [Widget.runTransformOp, Widget.set_max_height, h0,
          Widget.disable_scale, Widget.transformExclusive]

/-- A widget with an active max-width transform. -/
def maxWidthWidget : Widget :=
  { defaultWidget with max_width := some 100 }

/-- Counterexample to C6 as stated: calling `scale` while max-width is active
does disable max-width and raises no error, but emits no warning — the
conflict-warning branches are unreachable because `_disable_scale` clears the
conflicting settings before they are tested. -/
theorem c6_counterexample :
    maxWidthWidget.transformExclusive = true ∧
    maxWidthWidget.max_width.isSome = true ∧
    (maxWidthWidget.scale_transform 2 2 true).warnings = 0 ∧
    (maxWidthWidget.scale_transform 2 2 true).raised = false ∧
    (maxWidthWidget.scale_transform 2 2 true).widget.max_width = none ∧
    (maxWidthWidget.scale_transform 2 2 true).widget.scale_do = true := by
  decide

/-- Claim C6 (amended): after any sequence of `scale` / `set_max_width` /
`set_max_height` calls at most one of the three transforms is active, and
setting one while another is active silently disables the other without
raising (no warning is emitted, the warning code paths being unreachable). -/
theorem c6_transform_exclusive (w : Widget) (ops : List TransformOp)
    (wd ht mwv : Rat) (sm sh : Bool) :
    (w.transformExclusive = true → (w.runTransformOps ops).transformExclusive = true) ∧
    (0 < wd → 0 < ht →
      (w.scale_transform wd ht sm).raised = false ∧
      (w.scale_transform wd ht sm).warnings = 0 ∧
      (w.scale_transform wd ht sm).widget.max_width = none ∧
      (w.scale_transform wd ht sm).widget.max_height = none) ∧
    (0 ≤ mwv →
      (w.set_max_width (some mwv) sh sm).raised = false ∧
      (w.set_max_width (some mwv) sh sm).warnings = 0 ∧
      (w.set_max_width (some mwv) sh sm).widget.scale_do = false ∧
      (w.set_max_width (some mwv) sh sm).widget.max_height = none) := by
  refine ⟨?_, ?_, ?_⟩
  · intro h
    induction ops generalizing w with
    | nil => simpa [Widget.runTransformOps] using h
    | cons op ops ih =>
      have hstep := transformOp_exclusive w op h
      simpa [Widget.runTransformOps, List.foldl_cons] using
        ih ((w.runTransformOp op).widget) hstep
  · intro h1 h2
    have h0 : ¬(wd ≤ 0 ∨ ht ≤ 0) := by
      push_neg
      exact ⟨h1, h2⟩
    unfold Widget.scale_transform
    simp only [if_neg h0]
    by_cases h3 : wd = 1 ∧ ht = 1 <;>
      simp [h3, Widget.disable_scale]
  · intro h
    have h0 : ¬mwv < 0 := not_lt.mpr h
    simp [Widget.set_max_width, h0, Widget.disable_scale]

/-- Witness for the amended C6: one concrete transform sequence stays exclusive,
and concrete `scale` / `set_max_width` calls on a widget with the other
transform active succeed silently. -/
theorem c6_transform_exclusive_witness :
    maxWidthWidget.transformExclusive = true ∧
    ((maxWidthWidget.runTransformOps
        [TransformOp.opScale 2 3 true, TransformOp.opMaxHeight (some 50) false true,
         TransformOp.opMaxWidth (some 40) true false]).transformExclusive = true) ∧
    ((maxWidthWidget.scale_transform 2 3 true).raised = false ∧
     (maxWidthWidget.scale_transform 2 3 true).warnings = 0 ∧
     (maxWidthWidget.scale_transform 2 3 true).widget.max_width = none ∧
     (maxWidthWidget.scale_transform 2 3 true).widget.max_height = none) ∧
    ((maxWidthWidget.set_max_width (some 40) true true).raised = false ∧
     (maxWidthWidget.set_max_width (some 40) true true).warnings = 0 ∧
     (maxWidthWidget.set_max_width (some 40) true true).widget.scale_do = false ∧
     (maxWidthWidget.set_max_width (some 40) true true).widget.max_height = none) :=
  ⟨by decide,
   (c6_transform_exclusive maxWidthWidget
      [TransformOp.opScale 2 3 true, TransformOp.opMaxHeight (some 50) false true,
       TransformOp.opMaxWidth (some 40) true false] 2 3 40 true true).1 (by decide),
   (c6_transform_exclusive maxWidthWidget [] 2 3 40 true true).2.1 (by decide) (by decide),
   (c6_transform_exclusive maxWidthWidget [] 2 3 40 true true).2.2 (by decide)⟩

/-! ### C2: validation versus mutation in set_shadow -/

/-- The object state observable after a `set_shadow` call, whether it returned
normally or raised. -/
def shadowOutcome : Except Widget Widget → Widget
  | Except.error s => s
  | Except.ok s => s

/-- Tags of an `Except` result, for comparing call outcomes. -/
def exceptToSum : Except Widget Widget → Widget ⊕ Widget
  | Except.error e => Sum.inl e
  | Except.ok a => Sum.inr a

instance : DecidableEq (Except Widget Widget) := fun a b =>
  decidable_of_iff (exceptToSum a = exceptToSum b)
    (by cases a <;> cases b <;> simp [exceptToSum])

/-- Counterexample to C2 as stated: `set_shadow(enabled=True, color=<invalid>)`
on a widget without shadow raises (the color fails validation), yet the widget
state differs from the state before the call — `self._shadow = enabled` runs
before the color is validated. -/
theorem c2_counterexample :
    defaultWidget.shadow = false ∧
    validColor [300, 0, 0] = false ∧
    defaultWidget.set_shadow true (some [300, 0, 0]) none 2 =
      Except.error { defaultWidget with shadow := true } ∧
    ({ defaultWidget with shadow := true } : Widget).shadow ≠ defaultWidget.shadow := by
  decide

/-- Claim C2 (amended): `set_shadow` validates each argument before storing it —
in any outcome the stored shadow color is the original or a valid one, and the
stored offset is the original or positive — and a failing argument makes the
call raise; but the call is not atomic: an invalid color raises with the
shadow-enabled flag already updated to `enabled`. -/
theorem c2_shadow_guarded (w : Widget) (enabled : Bool) (color : Option (List Int))
    (position : Option Position) (offset : Int) :
    ((shadowOutcome (w.set_shadow enabled color position offset)).shadow_color = w.shadow_color ∨
      validColor (shadowOutcome (w.set_shadow enabled color position offset)).shadow_color = true) ∧
    ((shadowOutcome (w.set_shadow enabled color position offset)).shadow_offset = w.shadow_offset ∨
      0 < (shadowOutcome (w.set_shadow enabled color position offset)).shadow_offset) ∧
    (∀ c, color = some c → validColor c = false →
      w.set_shadow enabled color position offset = Except.error { w with shadow := enabled }) ∧
    (offset ≤ 0 → ∃ s, w.set_shadow enabled color position offset = Except.error s) := by
  rcases color with _ | c
  · -- color = None: no color validation, offset decides the outcome
    rcases position with _ | p <;>
      by_cases ho : offset ≤ 0
    · refine ⟨Or.inl ?_, Or.inl ?_, ?_, ?_⟩
      · simp [Widget.set_shadow, shadowOutcome, ho]
      · simp [Widget.set_shadow, shadowOutcome, ho]
      · intro cc hcc hvc
        exact absurd hcc (by simp)
      · intro hoo
        refine ⟨shadowOutcome (w.set_shadow enabled none none offset), ?_⟩
        simp [Widget.set_shadow, shadowOutcome, ho]
    · refine ⟨Or.inl ?_, Or.inr ?_, ?_, ?_⟩
      · simp [Widget.set_shadow, shadowOutcome, ho]
      · simp [Widget.set_shadow, shadowOutcome, ho, not_le.mp ho]
      · intro cc hcc hvc
        exact absurd hcc (by simp)
      · intro hoo
        exact absurd hoo ho
    · refine ⟨Or.inl ?_, Or.inl ?_, ?_, ?_⟩
      · simp [Widget.set_shadow, shadowOutcome, ho]
      · simp [Widget.set_shadow, shadowOutcome, ho]
      · intro cc hcc hvc
        exact absurd hcc (by simp)
      · intro hoo
        refine ⟨shadowOutcome (w.set_shadow enabled none (some p) offset), ?_⟩
        simp [Widget.set_shadow, shadowOutcome, ho]
    · refine ⟨Or.inl ?_, Or.inr ?_, ?_, ?_⟩
      · simp [Widget.set_shadow, shadowOutcome, ho]
      · simp [Widget.set_shadow, shadowOutcome, ho, not_le.mp ho]
      · intro cc hcc hvc
        exact absurd hcc (by simp)
      · intro hoo
        exact absurd hoo ho
  · by_cases hc : validColor c = true
    · -- valid color: stored, then offset decides the outcome
      rcases position with _ | p <;>
        by_cases ho : offset ≤ 0
      · refine ⟨Or.inr ?_, Or.inl ?_, ?_, ?_⟩
        · simp [Widget.set_shadow, shadowOutcome, hc, ho]
        · simp [Widget.set_shadow, shadowOutcome, hc, ho]
        · intro cc hcc hvc
          rw [Option.some.injEq] at hcc
          subst hcc
          rw [hvc] at hc
          cases hc
        · intro hoo
          refine ⟨shadowOutcome (w.set_shadow enabled (some c) none offset), ?_⟩
          simp [Widget.set_shadow, shadowOutcome, hc, ho]
      · refine ⟨Or.inr ?_, Or.inr ?_, ?_, ?_⟩
        · simp [Widget.set_shadow, shadowOutcome, hc, ho]
        · simp [Widget.set_shadow, shadowOutcome, hc, ho, not_le.mp ho]
        · intro cc hcc hvc
          rw [Option.some.injEq] at hcc
          subst hcc
          rw [hvc] at hc
          cases hc
        · intro hoo
          exact absurd hoo ho
      · refine ⟨Or.inr ?_, Or.inl ?_, ?_, ?_⟩
        · simp [Widget.set_shadow, shadowOutcome, hc, ho]
        · simp [Widget.set_shadow, shadowOutcome, hc, ho]
        · intro cc hcc hvc
          rw [Option.some.injEq] at hcc
          subst hcc
          rw [hvc] at hc
          cases hc
        · intro hoo
          refine ⟨shadowOutcome (w.set_shadow enabled (some c) (some p) offset), ?_⟩
          simp [Widget.set_shadow, shadowOutcome, hc, ho]
      · refine ⟨Or.inr ?_, Or.inr ?_, ?_, ?_⟩
        · simp [Widget.set_shadow, shadowOutcome, hc, ho]
        · simp [Widget.set_shadow, shadowOutcome, hc, ho, not_le.mp ho]
        · intro cc hcc hvc
          rw [Option.some.injEq] at hcc
          subst hcc
          rw [hvc] at hc
          cases hc
        · intro hoo
          exact absurd hoo ho
    · -- invalid color: the call raises right after mutating the shadow flag
      have hc2 : validColor c = false := by
        simpa using hc
      refine ⟨Or.inl ?_, Or.inl ?_, ?_, ?_⟩
      · simp [Widget.set_shadow, shadowOutcome, hc2]
      · simp [Widget.set_shadow, shadowOutcome, hc2]
      · intro cc hcc hvc
        rw [Option.some.injEq] at hcc
        subst hcc
        simp [Widget.set_shadow, hc2]
      · intro hoo
        exact ⟨{ w with shadow := enabled }, by simp [Widget.set_shadow, hc2]⟩

/-- A widget with an existing valid shadow color. -/
def shadowWidget : Widget :=
  { defaultWidget with shadow_color := [1, 2, 3] }

/-- Witness for the amended C2: a non-positive offset makes the call raise and
leaves the stored color/offset never invalid; an invalid color raises with the
shadow flag already mutated. -/
theorem c2_shadow_guarded_witness :
    ((shadowOutcome (shadowWidget.set_shadow true (some [9, 9, 9]) (some Position.south) 0)).shadow_color
        = shadowWidget.shadow_color ∨
      validColor (shadowOutcome
        (shadowWidget.set_shadow true (some [9, 9, 9]) (some Position.south) 0)).shadow_color = true) ∧
    (∃ s, shadowWidget.set_shadow true (some [9, 9, 9]) (some Position.south) 0 = Except.error s) ∧
    defaultWidget.set_shadow true (some [300, 0, 0]) none 2 =
      Except.error { defaultWidget with shadow := true } :=
  ⟨(c2_shadow_guarded shadowWidget true (some [9, 9, 9]) (some Position.south) 0).1,
   (c2_shadow_guarded shadowWidget true (some [9, 9, 9]) (some Position.south) 0).2.2.2 (by decide),
   (c2_shadow_guarded defaultWidget true (some [300, 0, 0]) none 2).2.2.1 [300, 0, 0] rfl (by decide)⟩

/-! ### C8: column/row/index triple -/

/-- In a per-column capacity list of positive capacities, every in-range lookup
is positive. -/
lemma getD_pos (rows : List Nat) (hrows : ∀ r ∈ rows, 0 < r) (c : Nat)
    (hc : c < rows.length) : 0 < rows.getD c 0 := by
  have h1 : rows.getD c 0 = rows[c] := by
    rw [List.getD_eq_getElem?_getD, List.getElem?_eq_getElem hc]
    rfl
  rw [h1]
  exact hrows _ (List.getElem_mem hc)

/-- A visible widget assigned an in-range slot `(a, b)` satisfies the layout
contract: its triple is not the `(-1,-1,-1)` sentinel and its column/row are in
bounds. -/
lemma layout_head_ok (rows : List Nat) (w2 : Widget) (a b c : Nat)
    (hvv : w2.visible = true)
    (hcr : w2.col_row_index = ((a : Int), (b : Int), (c : Int)))
    (ha : a < rows.length) (hb : b < rows.getD a 0) :
    (w2.col_row_index = (-1, -1, -1) ↔ w2.visible = false) ∧
    (w2.visible = true →
      0 ≤ w2.col_row_index.1 ∧ w2.col_row_index.1 < (rows.length : Int) ∧
      0 ≤ w2.col_row_index.2.1 ∧
      w2.col_row_index.2.1 < (rows.getD w2.col_row_index.1.toNat 0 : Int)) := by
  constructor
  · constructor
    · intro h1
      exfalso
      rw [hcr, Prod.mk.injEq, Prod.mk.injEq] at h1
      omega
    · intro hvf
      exfalso
      rw [hvf] at hvv
      exact Bool.noConfusion hvv
  · intro _
    rw [hcr]
    refine ⟨Int.natCast_nonneg a, ?_, Int.natCast_nonneg b, ?_⟩
    · show (a : Int) < (rows.length : Int)
      exact_mod_cast ha
    · show (b : Int) < (rows.getD ((a : Int)).toNat 0 : Int)
      rw [Int.toNat_natCast]
      exact_mod_cast hb

/-- A hidden widget assigned the `(-1,-1,-1)` sentinel satisfies the layout
contract. -/
lemma layout_hidden_ok (rows : List Nat) (w2 : Widget)
    (hvv : w2.visible = false) (hcr : w2.col_row_index = (-1, -1, -1)) :
    (w2.col_row_index = (-1, -1, -1) ↔ w2.visible = false) ∧
    (w2.visible = true →
      0 ≤ w2.col_row_index.1 ∧ w2.col_row_index.1 < (rows.length : Int) ∧
      0 ≤ w2.col_row_index.2.1 ∧
      w2.col_row_index.2.1 < (rows.getD w2.col_row_index.1.toNat 0 : Int)) := by
  refine ⟨⟨fun _ => hvv, fun _ => hcr⟩, fun hvt => ?_⟩
  exfalso
  rw [hvt] at hvv
  exact Bool.noConfusion hvv

/-- Invariant of the layout scan: provided capacities are positive and the scan
state is in range, every widget of a successful layout gets `(-1,-1,-1)` exactly
when hidden, and a visible widget's column/row land inside the grid. -/
lemma assignLayout_ok (rows : List Nat) (hrows : ∀ r ∈ rows, 0 < r) (ws : List Widget) :
    ∀ (col row idx : Nat) (last : Nat × Nat) (out : List Widget),
      (col < rows.length → row < rows.getD col 0) →
      last.1 < rows.length → last.2 < rows.getD last.1 0 →
      assignLayout rows ws col row idx last = some out →
      ∀ w2 ∈ out,
        (w2.col_row_index = (-1, -1, -1) ↔ w2.visible = false) ∧
        (w2.visible = true →
          0 ≤ w2.col_row_index.1 ∧ w2.col_row_index.1 < (rows.length : Int) ∧
          0 ≤ w2.col_row_index.2.1 ∧
          w2.col_row_index.2.1 < (rows.getD w2.col_row_index.1.toNat 0 : Int)) := by
  induction ws with
  | nil =>
    intro col row idx last out hinv hl1 hl2 heq w2 hw2
    simp [assignLayout] at heq
    subst heq
    simp at hw2
  | cons w ws ih =>
    intro col row idx last out hinv hl1 hl2 heq w2 hw2
    by_cases hv : w.visible = true
    · by_cases hf : w.floating = true
      · -- floating widget: reuses the slot of the preceding non-floating widget
        simp [assignLayout, hv, hf] at heq
        obtain ⟨r, hrec, hout⟩ := heq
        subst hout
        rcases List.mem_cons.mp hw2 with h2 | h2
        · subst h2
          exact layout_head_ok rows _ last.1 last.2 idx rfl rfl hl1 hl2
        · exact ih col row (idx + 1) last r hinv hl1 hl2 hrec w2 h2
      · -- regular visible widget: consumes the current slot
        have hf2 : w.floating = false := by
          simpa using hf
        by_cases hcol : col < rows.length
        · have hrow := hinv hcol
          have hgd : rows.getD col 0 = rows[col] := by
            rw [List.getD_eq_getElem?_getD, List.getElem?_eq_getElem hcol]
            rfl
          simp [assignLayout, hv, hf2, hcol] at heq
          obtain ⟨r, hrec, hout⟩ := heq
          subst hout
          rcases List.mem_cons.mp hw2 with h2 | h2
          · subst h2
            exact layout_head_ok rows _ col row idx rfl rfl hcol hrow
          · by_cases hnext : row + 1 = rows[col]
            · simp only [if_pos hnext] at hrec
              refine ih (col + 1) 0 (idx + 1) (col, row) r ?_ hcol hrow hrec w2 h2
              intro hc2
              exact getD_pos rows hrows _ hc2
            · simp only [if_neg hnext] at hrec
              refine ih col (row + 1) (idx + 1) (col, row) r ?_ hcol hrow hrec w2 h2
              intro _
              rw [hgd] at hrow ⊢
              omega
        · simp [assignLayout, hv, hf2, hcol] at heq
    · -- hidden widget: assigned (-1, -1, -1)
      have hv2 : w.visible = false := by
        simpa using hv
      simp [assignLayout, hv2] at heq
      obtain ⟨r, hrec, hout⟩ := heq
      subst hout
      rcases List.mem_cons.mp hw2 with h2 | h2
      · subst h2
        exact layout_hidden_ok rows _ rfl rfl
      · exact ih col row idx last r hinv hl1 hl2 hrec w2 h2

/-- Claim C8: detaching a widget (`set_menu(None)`) always resets the triple to
`(-1,-1,-1)`; in a successfully laid-out menu, a widget's triple is `(-1,-1,-1)`
iff the widget is hidden, and a visible widget's column/row lie within the
configured grid bounds. The Menu layout side is modelled from the spec
(`assignLayout`), the Menu class not being under `src/`. -/
theorem c8_col_row_index (w : Widget) (rows : List Nat) (ws out : List Widget) :
    ((w.set_menu none).get_col_row_index = (-1, -1, -1)) ∧
    ((∀ r ∈ rows, 0 < r) → 0 < rows.length → menuLayout rows ws = some out →
      ∀ w2 ∈ out,
        ((w2.get_col_row_index = (-1, -1, -1)) ↔ w2.visible = false) ∧
        (w2.visible = true →
          0 ≤ w2.get_col_row_index.1 ∧ w2.get_col_row_index.1 < (rows.length : Int) ∧
          0 ≤ w2.get_col_row_index.2.1 ∧
          w2.get_col_row_index.2.1 < (rows.getD w2.get_col_row_index.1.toNat 0 : Int))) := by
  constructor
  · simp [Widget.set_menu, Widget.get_col_row_index]
  · intro hrows hlen hlay w2 hw2
    have h0 : (0 : Nat) < rows.getD 0 0 := getD_pos rows hrows 0 hlen
    have hmain := assignLayout_ok rows hrows ws 0 0 0 (0, 0) out
      (fun _ => h0) hlen h0 hlay w2 hw2
    simpa [Widget.get_col_row_index] using hmain

/-- The spec section 8 scenario: five visible widgets in a 3-column menu with
per-column capacities `[2, 1, 2]`. -/
def c8ws : List Widget := List.replicate 5 defaultWidget

/-- The expected layout of `c8ws`: `(0,0,0), (0,1,1), (1,0,2), (2,0,3), (2,1,4)`. -/
def c8out : List Widget :=
  [{ defaultWidget with col_row_index := (0, 0, 0) },
   { defaultWidget with col_row_index := (0, 1, 1) },
   { defaultWidget with col_row_index := (1, 0, 2) },
   { defaultWidget with col_row_index := (2, 0, 3) },
   { defaultWidget with col_row_index := (2, 1, 4) }]

/-- The fourth laid-out widget of the scenario. -/
def c8fourth : Widget := { defaultWidget with col_row_index := (2, 0, 3) }

/-- Witness for C8: detaching resets the triple; the section 8 scenario lays out
as expected and its fourth widget has an in-bounds, non-sentinel triple. -/
theorem c8_col_row_index_witness :
    (defaultWidget.set_menu none).get_col_row_index = (-1, -1, -1) ∧
    menuLayout [2, 1, 2] c8ws = some c8out ∧
    ((c8fourth.get_col_row_index = (-1, -1, -1)) ↔ c8fourth.visible = false) ∧
    (0 ≤ c8fourth.get_col_row_index.1 ∧
     c8fourth.get_col_row_index.1 < (([2, 1, 2] : List Nat).length : Int) ∧
     0 ≤ c8fourth.get_col_row_index.2.1 ∧
     c8fourth.get_col_row_index.2.1 <
       (([2, 1, 2] : List Nat).getD c8fourth.get_col_row_index.1.toNat 0 : Int)) := by
  have h := c8_col_row_index defaultWidget [2, 1, 2] c8ws c8out
  have hlay : menuLayout [2, 1, 2] c8ws = some c8out := by decide
  have hmem := h.2 (by decide) (by decide) hlay c8fourth (by decide)
  exact ⟨h.1, hlay, hmem.1, hmem.2 rfl⟩

end PM
